import Mathlib

/-!
Verification development for the crypto-loans backend
(`src/backend/store.py`, `src/backend/server.py`).

The Python code is shallowly embedded: JSON dicts become association
lists over a small value type, SQLite tables become Lean lists, floats
become rationals, wall-clock reads become explicit `Nat` parameters, and
fallible code returns `Except`/`Option`.  Each definition mirrors one
Python function; doc comments name their source.
-/

/-- Python whitespace characters recognised by `str.split` / `str.strip`
(ASCII subset, which is all the code's inputs use). -/
def pyIsSpace (c : Char) : Bool :=
  c == ' ' || c == '\t' || c == '\n' || c == '\r' || c == '\x0b' || c == '\x0c'

/-- Python `str.strip()`. -/
def pyStrip (s : String) : String :=
  ((s.toList.dropWhile pyIsSpace).reverse.dropWhile pyIsSpace).reverse.asString

/-- Python `str.lower()` (ASCII case mapping, which covers the code's inputs:
hex addresses, IBANs, version strings). -/
def pyLower (s : String) : String := String.mk (s.toList.map Char.toLower)

/-- Python `str.upper()` (ASCII case mapping). -/
def pyUpper (s : String) : String := String.mk (s.toList.map Char.toUpper)

/-- `store.normalize_iban` (store.py line 13):
`"".join(iban.split()).upper()` — drop all whitespace, uppercase. -/
def normalize_iban (iban : String) : String :=
  pyUpper (String.mk (iban.toList.filter (fun c => !(pyIsSpace c))))

/-- JSON-style values stored in loan records and event metadata. -/
inductive JVal where
  | null
  | str (s : String)
  | num (q : Rat)
  | arr (xs : List JVal)
  | obj (fields : List (String × JVal))

/-- A Python dict with string keys, in insertion order. -/
abbrev Obj := List (String × JVal)

/-- `dict.get(k)` returning the first binding of `k`. -/
def objGet? (o : Obj) (k : String) : Option JVal :=
  match o with
  | [] => none
  | (k', v) :: rest => if k' = k then some v else objGet? rest k

/-- `dict.get(k)` with Python's `None` default. -/
def jget (o : Obj) (k : String) : JVal := (objGet? o k).getD JVal.null

/-- `dict.get(k, d)`. -/
def jgetD (o : Obj) (k : String) (d : JVal) : JVal := (objGet? o k).getD d

/-- `d[k] = v`: replace the first binding in place, or append. -/
def objSet (o : Obj) (k : String) (v : JVal) : Obj :=
  match o with
  | [] => [(k, v)]
  | (k', v') :: rest => if k' = k then (k', v) :: rest else (k', v') :: objSet rest k v

/-- `dict.setdefault(k, v)`: insert (at the end) only if `k` is absent. -/
def objSetdefault (o : Obj) (k : String) (v : JVal) : Obj :=
  match objGet? o k with
  | some _ => o
  | none => o ++ [(k, v)]

/-- `dict.update(fields)`: set each field in order. -/
def objUpdate (o : Obj) (fields : Obj) : Obj :=
  fields.foldl (fun acc kv => objSet acc kv.1 kv.2) o

/-- Python truthiness of a JSON value. -/
def pyTruthy : JVal → Bool
  | .null => false
  | .str s => s != ""
  | .num q => q != 0
  | .arr xs => !xs.isEmpty
  | .obj fields => !fields.isEmpty

/-- Python `a or b`. -/
def pyOr (a b : JVal) : JVal := if pyTruthy a then a else b

/-- Python `str(v)` on the values this codebase feeds it (`None`, strings,
and — only in unexercised corners — numbers, whose textual form is
approximated by the rational printer). -/
def pyStr : JVal → String
  | .null => "None"
  | .str s => s
  | .num q => toString q
  | .arr _ => "[...]"
  | .obj _ => "{...}"

/-- Python `float(v)` on the values this codebase feeds it (numbers, or the
result of `x or 0`). -/
def pyFloat : JVal → Rat
  | .num q => q
  | _ => 0

/-- Truncation toward zero, as Python `int()` applied to a float. -/
def pyTrunc (q : Rat) : Int := if q < 0 then q.ceil else q.floor

/-- Python `int(v)`: `none` models the `TypeError`/`ValueError` raise. -/
def pyInt : JVal → Option Int
  | .num q => some (pyTrunc q)
  | .str s => s.toInt?
  | _ => none

/-- Python `str.startswith(pre)`. -/
def pyStartsWith (s pre : String) : Bool :=
  pre.toList.isPrefixOf s.toList

/-- Extract a string value, if the value is a string. -/
def jstr? : JVal → Option String
  | .str s => some s
  | _ => none

/-- Lookup in a string-keyed association list (an SQLite table keyed by its
primary key, in insertion order). -/
def alookup {α : Type} (l : List (String × α)) (k : String) : Option α :=
  match l with
  | [] => none
  | (k', v) :: rest => if k' = k then some v else alookup rest k

/-- Upsert into a string-keyed association list
(`INSERT ... ON CONFLICT DO UPDATE`). -/
def aset {α : Type} (l : List (String × α)) (k : String) (v : α) : List (String × α) :=
  match l with
  | [] => [(k, v)]
  | (k', v') :: rest => if k' = k then (k', v) :: rest else (k', v') :: aset rest k v

/-- One row of the `events` table (store.py schema lines 47-58); list order
models the AUTOINCREMENT id order. -/
structure EventRow where
  loanId : String
  event : String
  metadata : Obj
  timestamp : Nat

/-- The persistent state of `LoanStore`: the `loans` table (loan_id → JSON
record) and the append-only `events` table. -/
structure StoreState where
  loans : List (String × Obj)
  events : List EventRow

def StoreState.empty : StoreState := ⟨[], []⟩

/-- `LoanStore._fetch` (store.py line 104). -/
def StoreState.fetch (st : StoreState) (loan_id : String) : Option Obj :=
  alookup st.loans loan_id

/-- `LoanStore._persist` (store.py line 109): upsert the encoded record. -/
def StoreState.persist (st : StoreState) (loan_id : String) (payload : Obj) : StoreState :=
  { loans := aset st.loans loan_id payload, events := st.events }

/-- `LoanStore.record_event` (store.py lines 158-166): append a row to the
`events` table unconditionally.  `t` is `int(time.time())`. -/
def StoreState.record_event (st : StoreState) (loan_id event : String)
    (metadata : Obj) (t : Nat) : StoreState :=
  { loans := st.loans, events := st.events ++ [⟨loan_id, event, metadata, t⟩] }

/-- `LoanStore._events_for` / `LoanStore.history` (store.py lines 168-176,
390-392): all events of one loan, in insertion order. -/
def StoreState.history (st : StoreState) (loan_id : String) : List EventRow :=
  st.events.filter (fun e => e.loanId == loan_id)

/-- Encoding of an event row as returned inside `get`'s `history` field. -/
def EventRow.toJVal (e : EventRow) : JVal :=
  .obj [("event", .str e.event), ("metadata", .obj e.metadata),
        ("timestamp", .num e.timestamp)]

/-- `LoanStore.get` (store.py lines 144-150): absent (or falsy) record gives
`None`; otherwise the record with its event history attached. -/
def StoreState.get (st : StoreState) (loan_id : String) : Option Obj :=
  match st.fetch loan_id with
  | none => none
  | some loan =>
    if loan.isEmpty then none
    else some (objSet loan "history" (.arr ((st.history loan_id).map EventRow.toJVal)))

/-- `LoanStore.create` (store.py lines 123-138).  `now` is the wall clock in
seconds (`time.time()`); the millisecond id uses `now * 1000`.  Note the
source computes `loan_id = str(payload.get("loanId") or payload.get("loan_id"))`,
so two absent id fields produce the string `"None"`. -/
def StoreState.create (st : StoreState) (now : Nat) (payload : Obj) : StoreState × Obj :=
  let loan_id0 := pyStr (pyOr (jget payload "loanId") (jget payload "loan_id"))
  let loan_id := if loan_id0 = "" then "loan-" ++ toString (now * 1000) else loan_id0
  let record := objSet payload "loanId" (.str loan_id)
  let record := objSetdefault record "status" (.str "active")
  let record := objSetdefault record "createdAt" (.num now)
  let record := objSetdefault record "history" (.arr [])
  let record := objSetdefault record "ltv" (.num (pyFloat (jgetD payload "ltv" (.num 0))))
  let record := objSetdefault record "principal" (.num (pyFloat (jgetD payload "principal" (.num 0))))
  let record := objSetdefault record "collateralBTCb" (.num (pyFloat (jgetD payload "collateralBTCb" (.num 0))))
  let st1 := st.persist loan_id record
  let st2 := st1.record_event loan_id "loan-created"
    [("principal", jget record "principal"), ("ltv", jget record "ltv")] now
  (st2, record)

/-- `LoanStore.update` (store.py lines 152-156): merge fields into the
existing (or newly scaffolded) record and persist. -/
def StoreState.update (st : StoreState) (loan_id : String) (fields : Obj) : StoreState × Obj :=
  let loan := (st.fetch loan_id).getD [("loanId", .str loan_id), ("history", .arr [])]
  let loan := objUpdate loan fields
  (st.persist loan_id loan, loan)

/-- `LoanStore.mark_repaid` (store.py lines 355-365). -/
def StoreState.mark_repaid (st : StoreState) (loan_id : String) (amount : Rat)
    (t : Nat) : StoreState × Obj :=
  let loan := (st.fetch loan_id).getD [("loanId", .str loan_id), ("history", .arr [])]
  let loan := objSet loan "status" (.str "repaid")
  let loan := objSet loan "repaidAmount" (.num amount)
  let loan := objSet loan "repaidAt" (.num t)
  let st1 := st.persist loan_id loan
  let st2 := st1.record_event loan_id "repayment-recorded" [("amount", .num amount)] t
  (st2, loan)

/-- `LoanStore.mark_default` (store.py lines 367-376). -/
def StoreState.mark_default (st : StoreState) (loan_id reason : String)
    (ltv : Option Rat) (t : Nat) : StoreState × Obj :=
  let loan := (st.fetch loan_id).getD [("loanId", .str loan_id), ("history", .arr [])]
  let loan := objSet loan "status" (.str "defaulted")
  let loan := objSet loan "defaultReason" (.str reason)
  let loan := match ltv with
    | some v => objSet loan "currentLtv" (.num v)
    | none => loan
  let st1 := st.persist loan_id loan
  let st2 := st1.record_event loan_id "loan-defaulted"
    [("reason", .str reason),
     ("ltv", match ltv with | some v => .num v | none => .null)] t
  (st2, loan)

/-- `LoanStore.update_health` (store.py lines 378-388): no-op on an absent
or falsy record, else write the health snapshot and append a
`health-check` event. -/
def StoreState.update_health (st : StoreState) (loan_id : String)
    (price_eur ltv : Rat) (t : Nat) : StoreState × Obj :=
  match st.fetch loan_id with
  | none => (st, [])
  | some loan =>
    if loan.isEmpty then (st, [])
    else
      let loan := objSet loan "lastPriceEur" (.num price_eur)
      let loan := objSet loan "currentLtv" (.num ltv)
      let loan := objSet loan "healthUpdatedAt" (.num t)
      let st1 := st.persist loan_id loan
      let st2 := st1.record_event loan_id "health-check"
        [("priceEur", .num price_eur), ("ltv", .num ltv)] t
      (st2, loan)

/-- The persisted status field of a loan, when it is a string. -/
def StoreState.statusOf (st : StoreState) (loan_id : String) : Option String :=
  match st.fetch loan_id with
  | none => none
  | some loan => jstr? (jget loan "status")

/-- `Handler.do_PATCH` (server.py lines 1205-1220), the status-update
endpoint: reject a status outside the allowed set, else `update` the loan
and append a `status-updated` event. -/
def do_PATCH (st : StoreState) (loan_id status : String) (t : Nat) :
    StoreState × Except String Obj :=
  if status = "active" ∨ status = "repaid" ∨ status = "defaulted" then
    let (st1, record) := st.update loan_id [("status", .str status)]
    let st2 := st1.record_event loan_id "status-updated" [("status", .str status)] t
    (st2, .ok record)
  else
    (st, .error "invalid status")

/-- Outcome of one Risk Monitor pass over a single loan. -/
inductive RiskOutcome where
  | skipped
  | snapshotOnly (ltv : Rat)
  | defaulted (ltv : Rat)
  | warned (ltv : Rat)
deriving DecidableEq

/-- The body of `RiskMonitor.run`'s per-loan loop (server.py lines 700-720)
applied to the loan `loan_id` of the store snapshot: skip non-active or
zero-collateral loans, compute `ltv = principal / (collateral * price)`,
write the health snapshot, then default (reason `ltv-threshold`) or warn —
the liquidate comparison strictly first. -/
def riskProcessLoan (st : StoreState) (warn_ltv liquidate_ltv price : Rat)
    (loan_id : String) (t : Nat) : StoreState × RiskOutcome :=
  let loan := (st.fetch loan_id).getD []
  if loan.isEmpty then (st, .skipped)
  else if jstr? (jget loan "status") ≠ some "active" then (st, .skipped)
  else
    let collateral := pyFloat (pyOr (jget loan "collateralBTCb") (.num 0))
    let principal := pyFloat (pyOr (jget loan "principal") (.num 0))
    if collateral ≤ 0 then (st, .skipped)
    else
      let collateral_value := collateral * price
      if collateral_value ≤ 0 then (st, .skipped)
      else
        let ltv := principal / collateral_value
        let st1 := (st.update_health loan_id price ltv t).1
        if liquidate_ltv ≤ ltv then
          ((st1.mark_default loan_id "ltv-threshold" (some ltv) t).1, .defaulted ltv)
        else if warn_ltv ≤ ltv then
          (st1.record_event loan_id "ltv-warning"
            [("ltv", .num ltv), ("threshold", .num warn_ltv)] t, .warned ltv)
        else (st1, .snapshotOnly ltv)

/-- An on-chain log entry, kept opaque (only its identity matters to the
worker loop). -/
structure LogEntry where
  data : String
deriving DecidableEq

/-- Observable result of one `EventWorker.run` cycle: the new last-seen
block, every `get_logs` call made (as a from/to range), and every handler
invocation with its outcome (`true` = returned, `false` = raised and was
caught). -/
structure CycleResult where
  lastBlock : Option Nat
  fetchCalls : List (Nat × Nat)
  handled : List (LogEntry × Bool)

/-- One iteration of `EventWorker.run`'s polling loop (server.py lines
466-488).  `hasEvent` models `getattr(contract.events, name, None)` being
present; `getLogs` is the chain client's `get_logs`; `handler` returns
`false` where the Python handler raises (the exception is caught per log
and the loop continues).  `last_block` advances to `latest` only after the
dispatch pass, independent of handler outcomes. -/
def eventWorkerCycle (last_block : Option Nat) (latest : Nat) (hasEvent : Bool)
    (getLogs : Nat → Nat → List LogEntry) (handler : LogEntry → Bool) : CycleResult :=
  match last_block with
  | none => ⟨some latest, [], []⟩
  | some last =>
    if latest < last then ⟨some last, [], []⟩
    else if latest = last then ⟨some last, [], []⟩
    else if !hasEvent then ⟨some last, [], []⟩
    else
      let logs := getLogs (last + 1) latest
      ⟨some latest, [(last + 1, latest)], logs.map (fun g => (g, handler g))⟩

/-- `TaskQueue._run`'s handling of a single work item (server.py lines
404-430), specialised to a callback that raises on its first `fails`
invocations and then returns.  Produces the sleep delays performed before
each re-enqueue and whether the callback eventually ran to success
(`false` = the item was dropped after exceeding `max_retries`).  `attempts`
is the item's current attempt count (0 for a fresh submission). -/
def runWorkItem (max_retries : Nat) (backoff : Rat) :
    Nat → Nat → List Rat × Bool
  | _, 0 => ([], true)
  | attempts, fails + 1 =>
    let a := attempts + 1
    if a ≤ max_retries then
      let r := runWorkItem max_retries backoff a fails
      ((backoff * (a : Rat)) :: r.1, r.2)
    else ([], false)

/-- `server._coalesce_address` (server.py lines 152-159): first candidate
that is not `None`, whose stripped text is non-empty and not (case-
insensitively) the literal `"none"`. -/
def _coalesce_address : List JVal → String
  | [] => ""
  | c :: rest =>
    match c with
    | .null => _coalesce_address rest
    | v =>
      let s := pyStrip (pyStr v)
      if s ≠ "" ∧ pyLower s ≠ "none" then s else _coalesce_address rest

/-- The EIP-712 `TermsAcceptance` message assembled by
`_validate_terms_acceptance` (server.py lines 201-205). -/
structure TermsMsg where
  wallet : String
  termsHash : String
  timestamp : Int
deriving DecidableEq

/-- The validated-acceptance record returned on success (server.py lines
222-228). -/
structure TermsValidated where
  wallet : String
  termsHash : String
  timestamp : Int
  signature : String
  termsVersion : String
deriving DecidableEq

/-- The signature extracted by `_validate_terms_acceptance` (line 165). -/
def termsSignatureOf (payload : Obj) : String :=
  pyStrip (pyStr (pyOr (jget payload "signature") (pyOr (jget payload "termsSignature") (.str ""))))

/-- The wallet candidate resolved on line 168. -/
def termsWalletOf (payload : Obj) (borrower_wallet : String) : String :=
  _coalesce_address [jget payload "wallet", jget payload "address", .str borrower_wallet]

/-- The raw submitted terms hash (line 175). -/
def termsHashOf (payload : Obj) : String :=
  pyStrip (pyStr (pyOr (jget payload "termsHash") (pyOr (jget payload "terms_hash") (.str ""))))

/-- The submitted hash after `0x`-prefixing (lines 178-179). -/
def termsHashNorm (payload : Obj) : String :=
  let t := termsHashOf payload
  if pyStartsWith t "0x" then t else "0x" ++ t

/-- The submitted version with its fallback to the active version
(line 182). -/
def termsVersionOf (active_version : String) (payload : Obj) : String :=
  pyStr (pyOr (jget payload "termsVersion") (pyOr (jget payload "version") (.str active_version)))

/-- The submitted timestamp, `none` when `int()` would raise
(lines 185-189). -/
def termsTimestampOf (payload : Obj) : Option Int :=
  pyInt (pyOr (jget payload "timestamp") (pyOr (jget payload "acceptedAt") (jget payload "accepted_at")))

/-- `server._validate_terms_acceptance` (server.py lines 162-228).
Configuration enters as parameters: `canonical_hash` is `TERMS_HASH`,
`active_version` is `TERMS_VERSION`, `checksum` is `_checksum_address`,
and `recover` is the `eth_account` signature-recovery oracle
(`Account.recover_message` over the encoded typed data; `none` models the
recovery exception).  The signature libraries are taken as installed, and
`encode_structured_data` as succeeding on the well-formed typed data the
function itself assembles. -/
def _validate_terms_acceptance (canonical_hash active_version : String)
    (checksum : String → String) (recover : TermsMsg → String → Option String)
    (payload : Obj) (borrower_wallet : String) : Except String TermsValidated :=
  if payload.isEmpty then .error "terms acceptance is required"
  else
    let signature := termsSignatureOf payload
    if signature = "" then .error "terms acceptance signature missing"
    else
      let wallet_candidate := termsWalletOf payload borrower_wallet
      if wallet_candidate = "" then .error "wallet is required for terms acceptance"
      else
        let borrower_norm := pyLower (pyStrip borrower_wallet)
        let wallet_norm := pyLower (pyStrip wallet_candidate)
        if borrower_norm ≠ "" ∧ wallet_norm ≠ borrower_norm then
          .error "terms acceptance wallet mismatch"
        else if termsHashOf payload = "" then .error "terms hash missing"
        else
          let terms_hash_value := termsHashNorm payload
          if pyLower terms_hash_value ≠ pyLower canonical_hash then
            .error "terms hash mismatch"
          else
            let provided_version := termsVersionOf active_version payload
            if provided_version ≠ active_version then .error "terms version mismatch"
            else
              match termsTimestampOf payload with
              | none => .error "terms timestamp invalid"
              | some timestamp =>
                if timestamp ≤ 0 then .error "terms timestamp invalid"
                else
                  let message : TermsMsg :=
                    ⟨checksum wallet_candidate, pyLower terms_hash_value, timestamp⟩
                  match recover message signature with
                  | none => .error "invalid terms acceptance signature"
                  | some recovered =>
                    if pyLower (pyStrip recovered) ≠ wallet_norm then
                      .error "terms signature does not match wallet"
                    else
                      .ok ⟨wallet_norm, pyLower terms_hash_value, timestamp,
                           signature, provided_version⟩

/-- One row of the `monerium_links` table (store.py schema lines 64-78),
as surfaced by `_fetch_monerium_link`. -/
structure MoneriumLink where
  wallet : String
  iban : String
  moneriumUserId : String
  bindingHash : String
  signature : String
  createdAt : Nat
  updatedAt : Nat
deriving DecidableEq

/-- The `monerium_links` table, keyed by its `wallet` primary key. -/
abbrev LinkTable := List (String × MoneriumLink)

/-- `LoanStore._fetch_monerium_link` (store.py lines 178-201): lookup by
`wallet.lower()`. -/
def fetch_monerium_link (links : LinkTable) (wallet : String) : Option MoneriumLink :=
  alookup links (pyLower wallet)

/-- `LoanStore.get_monerium_link` (store.py lines 286-289): strip and
lower-case the wallet, then fetch. -/
def get_monerium_link (links : LinkTable) (wallet : String) : Option MoneriumLink :=
  fetch_monerium_link links (pyLower (pyStrip wallet))

/-- `LoanStore.link_monerium_wallet` (store.py lines 226-284).  The SHA-256
binding hash is `H` applied to the concatenation of the three normalized
inputs, exactly the byte stream the source feeds `digest.update` with; `H`
abstracts the hex digest.  `t` is `int(time.time())`. -/
def link_monerium_wallet (H : String → String) (links : LinkTable)
    (wallet iban monerium_user_id signature : String) (t : Nat) :
    Except String (LinkTable × MoneriumLink) :=
  let wallet_norm := pyLower (pyStrip wallet)
  let iban_norm := normalize_iban iban
  let user_norm := pyStrip monerium_user_id
  if wallet_norm = "" then .error "wallet is required"
  else if iban_norm = "" then .error "iban is required"
  else if user_norm = "" then .error "monerium_user_id is required"
  else
    let binding_hash := H (wallet_norm ++ iban_norm ++ user_norm)
    let existing := fetch_monerium_link links wallet_norm
    let created_at := match existing with
      | some e => e.createdAt
      | none => t
    let record : MoneriumLink :=
      ⟨wallet_norm, iban_norm, user_norm, binding_hash, signature, created_at, t⟩
    .ok (aset links wallet_norm record, record)

/-- `LoanStore.require_monerium_link` (store.py lines 339-353).  An omitted
or empty optional input is falsy in Python and skips its comparison. -/
def require_monerium_link (links : LinkTable) (wallet : String)
    (iban : Option String) (monerium_user_id : Option String) :
    Except String MoneriumLink :=
  match get_monerium_link links wallet with
  | none => .error "monerium link not found"
  | some record =>
    if (iban.getD "") ≠ "" ∧ normalize_iban (iban.getD "") ≠ record.iban then
      .error "iban does not match linked account"
    else if (monerium_user_id.getD "") ≠ "" ∧
        pyStrip (monerium_user_id.getD "") ≠ record.moneriumUserId then
      .error "monerium user id does not match linked account"
    else .ok record

/-! ### Association-list lemmas -/

theorem alookup_aset_self {α : Type} (l : List (String × α)) (k : String) (v : α) :
    alookup (aset l k v) k = some v := by
  induction l with
  | nil => simp [aset, alookup]
  | cons hd tl ih =>
    obtain ⟨k', v'⟩ := hd
    by_cases h : k' = k
    · simp [aset, h, alookup]
    · simp [aset, h, alookup, ih]

theorem alookup_aset_ne {α : Type} (l : List (String × α)) (k k' : String) (v : α)
    (h : k' ≠ k) : alookup (aset l k' v) k = alookup l k := by
  induction l with
  | nil => simp [aset, alookup, h]
  | cons hd tl ih =>
    obtain ⟨k'', v''⟩ := hd
    by_cases hk : k'' = k'
    · subst hk
      simp [aset, alookup, h]
    · simp [aset, hk, alookup, ih]

theorem objGet?_objSet_self (o : Obj) (k : String) (v : JVal) :
    objGet? (objSet o k v) k = some v := by
  induction o with
  | nil => simp [objSet, objGet?]
  | cons hd tl ih =>
    obtain ⟨k', v'⟩ := hd
    by_cases h : k' = k
    · simp [objSet, h, objGet?]
    · simp [objSet, h, objGet?, ih]

theorem objGet?_objSet_ne (o : Obj) (k k' : String) (v : JVal)
    (h : k' ≠ k) : objGet? (objSet o k' v) k = objGet? o k := by
  induction o with
  | nil => simp [objSet, objGet?, h]
  | cons hd tl ih =>
    obtain ⟨k'', v''⟩ := hd
    by_cases hk : k'' = k'
    · subst hk
      simp [objSet, objGet?, h]
    · simp [objSet, hk, objGet?, ih]

theorem objGet?_ne_nil (o : Obj) (k : String) (v : JVal)
    (h : objGet? o k = some v) : o.isEmpty = false := by
  cases o with
  | nil => simp [objGet?] at h
  | cons hd tl => simp

/-! ### Effect of each store mutation on the persisted status field -/

theorem statusOf_mark_repaid_self (st : StoreState) (id : String) (a : Rat) (t : Nat) :
    (st.mark_repaid id a t).1.statusOf id = some "repaid" := by
  unfold StoreState.mark_repaid StoreState.statusOf StoreState.fetch StoreState.persist
    StoreState.record_event
  simp only [alookup_aset_self, jget]
  rw [objGet?_objSet_ne _ _ _ _ (by decide), objGet?_objSet_ne _ _ _ _ (by decide),
    objGet?_objSet_self]
  rfl

theorem statusOf_mark_repaid_other (st : StoreState) (id id' : String) (a : Rat) (t : Nat)
    (h : id ≠ id') : (st.mark_repaid id a t).1.statusOf id' = st.statusOf id' := by
  unfold StoreState.mark_repaid StoreState.statusOf StoreState.fetch StoreState.persist
    StoreState.record_event
  simp only [alookup_aset_ne _ _ _ _ h]

theorem statusOf_mark_default_self (st : StoreState) (id r : String) (ltv : Option Rat)
    (t : Nat) : (st.mark_default id r ltv t).1.statusOf id = some "defaulted" := by
  unfold StoreState.mark_default StoreState.statusOf StoreState.fetch StoreState.persist
    StoreState.record_event
  cases ltv with
  | none =>
    simp only [alookup_aset_self, jget]
    rw [objGet?_objSet_ne _ _ _ _ (by decide), objGet?_objSet_self]
    rfl
  | some v =>
    simp only [alookup_aset_self, jget]
    rw [objGet?_objSet_ne _ _ _ _ (by decide), objGet?_objSet_ne _ _ _ _ (by decide),
      objGet?_objSet_self]
    rfl

theorem statusOf_mark_default_other (st : StoreState) (id id' r : String) (ltv : Option Rat)
    (t : Nat) (h : id ≠ id') :
    (st.mark_default id r ltv t).1.statusOf id' = st.statusOf id' := by
  unfold StoreState.mark_default StoreState.statusOf StoreState.fetch StoreState.persist
    StoreState.record_event
  cases ltv with
  | none => simp only [alookup_aset_ne _ _ _ _ h]
  | some v => simp only [alookup_aset_ne _ _ _ _ h]

theorem statusOf_update_health (st : StoreState) (id id' : String) (p l : Rat) (t : Nat) :
    (st.update_health id p l t).1.statusOf id' = st.statusOf id' := by
  unfold StoreState.update_health
  cases hf : st.fetch id with
  | none => rfl
  | some loan =>
    by_cases he : loan.isEmpty
    · simp [he]
    · simp only [he, Bool.false_eq_true, if_false]
      unfold StoreState.statusOf StoreState.fetch StoreState.persist StoreState.record_event
      by_cases hid : id = id'
      · subst hid
        simp only [alookup_aset_self]
        have hfl : alookup st.loans id = some loan := hf
        simp only [StoreState.fetch] at hfl
        rw [hfl]
        simp only [jget]
        rw [objGet?_objSet_ne _ _ _ _ (by decide), objGet?_objSet_ne _ _ _ _ (by decide),
          objGet?_objSet_ne _ _ _ _ (by decide)]
      · simp only [alookup_aset_ne _ _ _ _ hid]

theorem statusOf_record_event (st : StoreState) (id id' ev : String) (md : Obj) (t : Nat) :
    (st.record_event id ev md t).statusOf id' = st.statusOf id' := rfl

/-! ### C1: status monotonicity -/

/-- The store mutations under which a terminal status is preserved:
`mark_repaid`, `mark_default`, `update_health`, `record_event`. -/
inductive SafeOp where
  | markRepaid (id : String) (amount : Rat) (t : Nat)
  | markDefault (id reason : String) (ltv : Option Rat) (t : Nat)
  | updateHealth (id : String) (price ltv : Rat) (t : Nat)
  | recordEvent (id ev : String) (md : Obj) (t : Nat)

def applySafeOp (st : StoreState) : SafeOp → StoreState
  | .markRepaid id a t => (st.mark_repaid id a t).1
  | .markDefault id r l t => (st.mark_default id r l t).1
  | .updateHealth id p l t => (st.update_health id p l t).1
  | .recordEvent id e m t => st.record_event id e m t

def applySafeOps (st : StoreState) (ops : List SafeOp) : StoreState :=
  ops.foldl applySafeOp st

/-- A loan status is terminal when it is `repaid` or `defaulted`. -/
def terminalStatus (s : Option String) : Prop :=
  s = some "repaid" ∨ s = some "defaulted"

theorem terminal_preserved_op (st : StoreState) (op : SafeOp) (id : String)
    (h : terminalStatus (st.statusOf id)) :
    terminalStatus ((applySafeOp st op).statusOf id) := by
  cases op with
  | markRepaid id' a t =>
    simp only [applySafeOp]
    by_cases hid : id' = id
    · subst hid
      exact Or.inl (statusOf_mark_repaid_self st id' a t)
    · rw [statusOf_mark_repaid_other st id' id a t hid]
      exact h
  | markDefault id' r l t =>
    simp only [applySafeOp]
    by_cases hid : id' = id
    · subst hid
      exact Or.inr (statusOf_mark_default_self st id' r l t)
    · rw [statusOf_mark_default_other st id' id r l t hid]
      exact h
  | updateHealth id' p l t =>
    simp only [applySafeOp]
    rw [statusOf_update_health]
    exact h
  | recordEvent id' e m t =>
    simp only [applySafeOp]
    rw [statusOf_record_event]
    exact h

/-- C1 (amended): once a loan's persisted status is terminal (`repaid` or
`defaulted`), it never returns to `active` under any sequence of
`markRepaid`, `markDefault`, `updateHealth` and `recordEvent` — the status
stays in the terminal set.  (The claim's full operation list is refuted by
the counterexample: the PATCH status endpoint, via `update`, accepts
`status='active'` and reactivates a terminal loan.) -/
theorem loan_status_never_returns_to_active (ops : List SafeOp) (st : StoreState)
    (id : String) (h : terminalStatus (st.statusOf id)) :
    terminalStatus ((applySafeOps st ops).statusOf id) := by
  induction ops generalizing st with
  | nil => exact h
  | cons op rest ih => exact ih (applySafeOp st op) (terminal_preserved_op st op id h)

/-- Witness for the amended C1 theorem at a concrete defaulted loan and a
concrete operation sequence. -/
theorem loan_status_never_returns_to_active_witness :
    terminalStatus ((applySafeOps (StoreState.empty.mark_default "L" "manual" none 1).1
      [.markRepaid "L" 2 3, .updateHealth "L" 4 (1/2) 5,
       .recordEvent "L" "note" [] 6]).statusOf "L") :=
  loan_status_never_returns_to_active _ _ _ (Or.inr rfl)

/-- C1 counterexample: a loan marked repaid is returned to `active` by the
PATCH status-update endpoint, refuting the claim over the claim's own
operation list (which includes the PATCH endpoint and `update`). -/
theorem patch_reactivates_terminal_loan :
    (StoreState.empty.mark_repaid "L" 5 10).1.statusOf "L" = some "repaid" ∧
    ((do_PATCH (StoreState.empty.mark_repaid "L" 5 10).1 "L" "active" 11).1.statusOf "L")
      = some "active" :=
  ⟨rfl, rfl⟩

/-! ### C2: create with both id fields absent -/

/-- C2 (code bug): when both `loanId` and `loan_id` are absent, `create`
persists the record under the literal string `"None"` (from
`str(payload.get("loanId") or payload.get("loan_id"))`), so no fresh
`loan-<ms>` identifier is generated and all id-less loans collide under the
single key `"None"`. -/
theorem create_without_id_persists_under_None :
    objGet? (StoreState.empty.create 1234 []).2 "loanId" = some (JVal.str "None") ∧
    (StoreState.empty.create 1234 []).1.loans.map Prod.fst = ["None"] ∧
    ((StoreState.empty.create 1 []).1.create 2 []).1.loans.map Prod.fst = ["None"] :=
  ⟨rfl, rfl, rfl⟩

/-! ### C9: record_event on unknown identifiers, get on unknown identifiers -/

/-- C9: `record_event` appends a history-retrievable event row for any loan
identifier, known or not; and `get` returns `none` for an identifier with
no stored record. -/
theorem record_event_unconditional_get_absent (st : StoreState) (id kind : String)
    (md : Obj) (t : Nat) :
    (st.record_event id kind md t).history id = st.history id ++ [⟨id, kind, md, t⟩] ∧
    (st.fetch id = none → st.get id = none) := by
  constructor
  · unfold StoreState.record_event StoreState.history
    simp
  · intro h
    unfold StoreState.get
    rw [h]

/-- Witness: on the empty store, the recorded event is the retrieved
history, and `get` of the unknown identifier is absent. -/
theorem record_event_unconditional_get_absent_witness :
    (StoreState.empty.record_event "X" "chain-event" [] 7).history "X" =
      [⟨"X", "chain-event", [], 7⟩] ∧
    StoreState.empty.get "X" = none := by
  have h := record_event_unconditional_get_absent StoreState.empty "X" "chain-event" [] 7
  exact ⟨by rw [h.1]; rfl, h.2 rfl⟩

/-! ### C10: terminal marks on unknown identifiers scaffold a record -/

/-- C10: `mark_repaid` and `mark_default` on an identifier with no stored
record never fail: each scaffolds a fresh record with the identifier and
the terminal fields, persists it, and appends its audit event. -/
theorem terminal_marks_scaffold_unknown_loan (st : StoreState) (id reason : String)
    (amount : Rat) (t : Nat) (h : st.fetch id = none) :
    (st.mark_repaid id amount t).2 =
      [("loanId", .str id), ("history", .arr []), ("status", .str "repaid"),
       ("repaidAmount", .num amount), ("repaidAt", .num t)] ∧
    (st.mark_repaid id amount t).1.fetch id = some (st.mark_repaid id amount t).2 ∧
    (st.mark_repaid id amount t).1.events =
      st.events ++ [⟨id, "repayment-recorded", [("amount", .num amount)], t⟩] ∧
    (st.mark_default id reason none t).2 =
      [("loanId", .str id), ("history", .arr []), ("status", .str "defaulted"),
       ("defaultReason", .str reason)] ∧
    (st.mark_default id reason none t).1.fetch id = some (st.mark_default id reason none t).2 ∧
    (st.mark_default id reason none t).1.events =
      st.events ++ [⟨id, "loan-defaulted", [("reason", .str reason), ("ltv", .null)], t⟩] := by
  unfold StoreState.mark_repaid StoreState.mark_default
  rw [h]
  refine ⟨rfl, ?_, rfl, rfl, ?_, rfl⟩
  · exact alookup_aset_self ..
  · exact alookup_aset_self ..

/-- Witness for C10 on the empty store. -/
theorem terminal_marks_scaffold_unknown_loan_witness :
    (StoreState.empty.mark_repaid "L" 3 9).2 =
      [("loanId", .str "L"), ("history", .arr []), ("status", .str "repaid"),
       ("repaidAmount", .num 3), ("repaidAt", .num 9)] ∧
    (StoreState.empty.mark_default "L" "liquidation" none 9).2 =
      [("loanId", .str "L"), ("history", .arr []), ("status", .str "defaulted"),
       ("defaultReason", .str "liquidation")] := by
  have h := terminal_marks_scaffold_unknown_loan StoreState.empty "L" "liquidation" 3 9 rfl
  exact ⟨h.1, h.2.2.2.1⟩

/-! ### C5: task queue retry behaviour -/

theorem runWorkItem_le_max (max_retries : Nat) (backoff : Rat) :
    ∀ fails attempts, attempts + fails ≤ max_retries →
    runWorkItem max_retries backoff attempts fails =
      ((List.range fails).map (fun i => backoff * ((attempts + i + 1 : Nat) : Rat)), true) := by
  intro fails
  induction fails with
  | zero =>
    intro attempts h
    simp [runWorkItem]
  | succ n ih =>
    intro attempts h
    rw [runWorkItem]
    simp only []
    rw [if_pos (show attempts + 1 ≤ max_retries by omega)]
    rw [ih (attempts + 1) (by omega)]
    rw [List.range_succ_eq_map, List.map_cons, List.map_map]
    refine congrArg₂ Prod.mk (congrArg₂ List.cons rfl ?_) rfl
    apply List.map_congr_left
    intro i _
    have he : attempts + 1 + i + 1 = attempts + (i + 1) + 1 := by omega
    simp only [Function.comp_apply, Nat.succ_eq_add_one]
    rw [he]

theorem runWorkItem_drop (max_retries : Nat) (backoff : Rat) :
    ∀ fails attempts, 0 < fails → max_retries < attempts + fails →
    (runWorkItem max_retries backoff attempts fails).2 = false := by
  intro fails
  induction fails with
  | zero =>
    intro attempts h
    omega
  | succ n ih =>
    intro attempts _ h
    rw [runWorkItem]
    by_cases hle : attempts + 1 ≤ max_retries
    · rw [if_pos hle]
      exact ih (attempts + 1) (by omega) (by omega)
    · rw [if_neg hle]

/-- C5: on each failure the attempt count increments and, while
`attempts ≤ max_retries`, the item sleeps `backoff * attempts` (linear
backoff) and is re-enqueued, so a callback failing `fails ≤ max_retries`
times runs to success with exactly the delays `backoff*1, …, backoff*fails`;
once the failures exceed `max_retries` the item is dropped. -/
theorem task_queue_linear_retry (max_retries : Nat) (backoff : Rat) (fails : Nat)
    (h : fails ≤ max_retries) :
    runWorkItem max_retries backoff 0 fails =
      ((List.range fails).map (fun i => backoff * ((i + 1 : Nat) : Rat)), true) ∧
    (∀ fails', max_retries < fails' →
      (runWorkItem max_retries backoff 0 fails').2 = false) := by
  constructor
  · have hx := runWorkItem_le_max max_retries backoff fails 0 (by omega)
    simpa using hx
  · intro fails' h'
    exact runWorkItem_drop max_retries backoff fails' 0 (by omega) (by omega)

/-- Witness: the spec scenario — 3 failures then success with
`max_retries = 5` and `backoff = 5` — succeeds after sleeping 5, 10, 15
seconds, and is not abandoned. -/
theorem task_queue_linear_retry_witness :
    runWorkItem 5 5 0 3 = ([5, 10, 15], true) := by
  have h := task_queue_linear_retry 5 5 3 (by decide)
  rw [h.1]
  norm_num [List.range_succ]

/-! ### C4: event worker cycle -/

/-- C4: with the last-seen block `last`, a cycle at chain height
`latest = last` performs no fetch and leaves the state unchanged; at
`latest > last` it fetches exactly the range `(last+1, latest)` once,
invokes the handler on every fetched log (exceptions caught per log), and
advances last-seen to `latest` regardless of the handler outcomes. -/
theorem event_worker_cycle_spec (last latest : Nat)
    (getLogs : Nat → Nat → List LogEntry) (handler : LogEntry → Bool) :
    (latest = last →
      eventWorkerCycle (some last) latest true getLogs handler = ⟨some last, [], []⟩) ∧
    (last < latest →
      eventWorkerCycle (some last) latest true getLogs handler =
        ⟨some latest, [(last + 1, latest)],
         (getLogs (last + 1) latest).map (fun g => (g, handler g))⟩) := by
  constructor
  · intro h
    subst h
    simp [eventWorkerCycle]
  · intro h
    have h1 : ¬ latest < last := by omega
    have h2 : ¬ latest = last := by omega
    simp [eventWorkerCycle, h1, h2]

/-- Witness: the spec scenario — `lastSeen=100, latest=100` gives no fetch
and no state change; `latest=105` gives one fetch of 101..105 and
`lastSeen=105` even though the handler raises on one of the two logs. -/
theorem event_worker_cycle_spec_witness :
    eventWorkerCycle (some 100) 100 true (fun _ _ => [⟨"a"⟩, ⟨"b"⟩]) (fun g => g.data == "b")
      = ⟨some 100, [], []⟩ ∧
    eventWorkerCycle (some 100) 105 true (fun _ _ => [⟨"a"⟩, ⟨"b"⟩]) (fun g => g.data == "b")
      = ⟨some 105, [(101, 105)], [(⟨"a"⟩, false), (⟨"b"⟩, true)]⟩ := by
  have h := event_worker_cycle_spec 100 100 (fun _ _ => [⟨"a"⟩, ⟨"b"⟩]) (fun g => g.data == "b")
  have h' := event_worker_cycle_spec 100 105 (fun _ _ => [⟨"a"⟩, ⟨"b"⟩]) (fun g => g.data == "b")
  refine ⟨h.1 rfl, ?_⟩
  rw [h'.2 (by omega)]
  rfl

/-! ### C7: requireBinding gate -/

/-- C7: `require_monerium_link` fails when no binding exists for the
normalized wallet; fails when a supplied (non-empty) IBAN normalizes to a
value different from the stored one, or a supplied rail user id differs
(stripped) from the stored one; and returns the stored binding when every
supplied value normalizes identically to the stored value. -/
theorem require_binding_gate (links : LinkTable) (wallet : String)
    (iban uid : Option String) :
    (get_monerium_link links wallet = none →
      require_monerium_link links wallet iban uid = .error "monerium link not found") ∧
    (∀ r, get_monerium_link links wallet = some r →
      (iban.getD "" ≠ "" ∧ normalize_iban (iban.getD "") ≠ r.iban →
        require_monerium_link links wallet iban uid =
          .error "iban does not match linked account") ∧
      ((iban.getD "" ≠ "" → normalize_iban (iban.getD "") = r.iban) →
        uid.getD "" ≠ "" → pyStrip (uid.getD "") ≠ r.moneriumUserId →
        require_monerium_link links wallet iban uid =
          .error "monerium user id does not match linked account") ∧
      ((iban.getD "" ≠ "" → normalize_iban (iban.getD "") = r.iban) →
        (uid.getD "" ≠ "" → pyStrip (uid.getD "") = r.moneriumUserId) →
        require_monerium_link links wallet iban uid = .ok r)) := by
  constructor
  · intro h
    simp only [require_monerium_link, h]
  · intro r hr
    refine ⟨?_, ?_, ?_⟩
    · intro hmis
      simp only [require_monerium_link, hr]
      rw [if_pos hmis]
    · intro hok hu hne
      have h1 : ¬(iban.getD "" ≠ "" ∧ normalize_iban (iban.getD "") ≠ r.iban) :=
        fun hc => hc.2 (hok hc.1)
      simp only [require_monerium_link, hr]
      rw [if_neg h1, if_pos ⟨hu, hne⟩]
    · intro hok huok
      have h1 : ¬(iban.getD "" ≠ "" ∧ normalize_iban (iban.getD "") ≠ r.iban) :=
        fun hc => hc.2 (hok hc.1)
      have h2 : ¬(uid.getD "" ≠ "" ∧ pyStrip (uid.getD "") ≠ r.moneriumUserId) :=
        fun hc => hc.2 (huok hc.1)
      simp only [require_monerium_link, hr]
      rw [if_neg h1, if_neg h2]

/-- A stored binding row used by the C7 witness. -/
def linkRecEx : MoneriumLink :=
  ⟨"0xabc", "DE89370400440532013000", "user-1", "hash-1", "sig-1", 1, 2⟩

/-- Witness: a differently-cased, whitespace-padded wallet and IBAN still
match the stored binding, and the empty table yields the not-found
error. -/
theorem require_binding_gate_witness :
    require_monerium_link [("0xabc", linkRecEx)] " 0xABC"
      (some "de89 3704 0044 0532 0130 00") (some "user-1") = .ok linkRecEx ∧
    require_monerium_link [] "0xabc" none none = .error "monerium link not found" := by
  have h := require_binding_gate [("0xabc", linkRecEx)] " 0xABC"
    (some "de89 3704 0044 0532 0130 00") (some "user-1")
  have h2 := require_binding_gate [] "0xabc" (none : Option String) (none : Option String)
  exact ⟨(h.2 linkRecEx (by decide)).2.2 (fun _ => by decide) (fun _ => by decide),
    h2.1 (by decide)⟩

/-! ### C8: binding hash determinism -/

theorem link_result_hash (H : String → String) (links : LinkTable)
    (w i u s : String) (t : Nat) (p : LinkTable × MoneriumLink)
    (h : link_monerium_wallet H links w i u s t = .ok p) :
    p.2.bindingHash = H (pyLower (pyStrip w) ++ normalize_iban i ++ pyStrip u) := by
  simp only [link_monerium_wallet] at h
  by_cases c1 : pyLower (pyStrip w) = ""
  · rw [if_pos c1] at h
    exact Except.noConfusion h
  · rw [if_neg c1] at h
    by_cases c2 : normalize_iban i = ""
    · rw [if_pos c2] at h
      exact Except.noConfusion h
    · rw [if_neg c2] at h
      by_cases c3 : pyStrip u = ""
      · rw [if_pos c3] at h
        exact Except.noConfusion h
      · rw [if_neg c3] at h
        have h' := Except.ok.inj h
        rw [← h']

/-- C8: `link_monerium_wallet`'s binding hash is a deterministic function
of the normalized inputs — two calls whose wallet (stripped, lower-cased),
IBAN (whitespace-stripped, upper-cased) and rail user id (stripped)
normalize to equal values produce the same binding hash, for any digest
function and any prior table contents. -/
theorem link_binding_hash_deterministic (H : String → String)
    (links1 links2 : LinkTable) (w1 i1 u1 s1 w2 i2 u2 s2 : String) (t1 t2 : Nat)
    (hw : pyLower (pyStrip w1) = pyLower (pyStrip w2))
    (hi : normalize_iban i1 = normalize_iban i2)
    (hu : pyStrip u1 = pyStrip u2) :
    ∀ p1 p2, link_monerium_wallet H links1 w1 i1 u1 s1 t1 = .ok p1 →
      link_monerium_wallet H links2 w2 i2 u2 s2 t2 = .ok p2 →
      p1.2.bindingHash = p2.2.bindingHash := by
  intro p1 p2 h1 h2
  rw [link_result_hash H links1 w1 i1 u1 s1 t1 p1 h1,
    link_result_hash H links2 w2 i2 u2 s2 t2 p2 h2, hw, hi, hu]

/-- Concrete link results for the C8 witness (digest function `id`). -/
def c8Rec1 : MoneriumLink :=
  ⟨"0xabc", "DE89370400440532013000", "user-1",
   "0xabcDE89370400440532013000user-1", "sig1", 1, 1⟩

def c8Rec2 : MoneriumLink :=
  ⟨"0xabc", "DE89370400440532013000", "user-1",
   "0xabcDE89370400440532013000user-1", "sig2", 2, 2⟩

/-- Witness: two links whose wallets differ in case and padding and whose
IBANs differ only in casing and whitespace produce the same binding
hash. -/
theorem link_binding_hash_deterministic_witness :
    link_monerium_wallet id [] "0xAbC" "de89 3704 0044 0532 0130 00" " user-1 " "sig1" 1
      = .ok ([("0xabc", c8Rec1)], c8Rec1) ∧
    link_monerium_wallet id [] " 0xabc " "DE89370400440532013000" "user-1" "sig2" 2
      = .ok ([("0xabc", c8Rec2)], c8Rec2) ∧
    c8Rec1.bindingHash = c8Rec2.bindingHash := by
  refine ⟨by rfl, by rfl, ?_⟩
  exact link_binding_hash_deterministic id [] [] "0xAbC" "de89 3704 0044 0532 0130 00"
    " user-1 " "sig1" " 0xabc " "DE89370400440532013000" "user-1" "sig2" 1 2
    (by decide) (by decide) (by decide) ([("0xabc", c8Rec1)], c8Rec1)
    ([("0xabc", c8Rec2)], c8Rec2) (by rfl) (by rfl)

/-! ### C3: risk monitor cycle over one active loan -/

/-- `float(loan.get("collateralBTCb") or 0)` for the stored loan. -/
def loanCollateral (st : StoreState) (id : String) : Rat :=
  pyFloat (pyOr (jget ((st.fetch id).getD []) "collateralBTCb") (.num 0))

/-- `float(loan.get("principal") or 0)` for the stored loan. -/
def loanPrincipal (st : StoreState) (id : String) : Rat :=
  pyFloat (pyOr (jget ((st.fetch id).getD []) "principal") (.num 0))

/-- The LTV the Risk Monitor computes: `principal / (collateral * price)`. -/
def loanLtv (st : StoreState) (id : String) (price : Rat) : Rat :=
  loanPrincipal st id / (loanCollateral st id * price)

theorem mark_default_reason (st : StoreState) (id r : String) (lv : Option Rat) (t : Nat) :
    objGet? (((st.mark_default id r lv t).1.fetch id).getD []) "defaultReason"
      = some (.str r) := by
  unfold StoreState.mark_default StoreState.fetch StoreState.persist StoreState.record_event
  cases lv with
  | none =>
    simp only [alookup_aset_self, Option.getD_some]
    rw [objGet?_objSet_self]
  | some v =>
    simp only [alookup_aset_self, Option.getD_some]
    rw [objGet?_objSet_ne _ _ _ _ (by decide), objGet?_objSet_self]

theorem mark_default_events (st : StoreState) (id r : String) (lv : Option Rat) (t : Nat) :
    (st.mark_default id r lv t).1.events =
      st.events ++ [⟨id, "loan-defaulted",
        [("reason", .str r),
         ("ltv", match lv with | some v => .num v | none => .null)], t⟩] := by
  unfold StoreState.mark_default StoreState.persist StoreState.record_event
  cases lv <;> rfl

set_option maxHeartbeats 1000000 in
/-- C3: on a Risk Monitor pass over a loan with status `active`, positive
collateral and a positive price, with `ltv = principal / (collateral *
price)`: the health snapshot is always written; if `ltv ≥ liquidate`
the loan is defaulted with reason `ltv-threshold` (the liquidate check
precedes the warn check, so no `ltv-warning` is appended even when the
warn threshold is also crossed); otherwise if `ltv ≥ warn` a non-terminal
`ltv-warning` event is appended and the loan stays `active`. -/
theorem risk_monitor_cycle_per_loan (st : StoreState) (warn liq price : Rat)
    (id : String) (t : Nat)
    (hs : st.statusOf id = some "active")
    (hc : 0 < loanCollateral st id)
    (hp : 0 < price) :
    (⟨id, "health-check",
       [("priceEur", .num price), ("ltv", .num (loanLtv st id price))], t⟩ : EventRow)
      ∈ (riskProcessLoan st warn liq price id t).1.events ∧
    (liq ≤ loanLtv st id price →
      (riskProcessLoan st warn liq price id t).2 = .defaulted (loanLtv st id price) ∧
      (riskProcessLoan st warn liq price id t).1.statusOf id = some "defaulted" ∧
      objGet? (((riskProcessLoan st warn liq price id t).1.fetch id).getD [])
        "defaultReason" = some (.str "ltv-threshold") ∧
      (riskProcessLoan st warn liq price id t).1.events =
        st.events ++
          [⟨id, "health-check",
             [("priceEur", .num price), ("ltv", .num (loanLtv st id price))], t⟩,
           ⟨id, "loan-defaulted",
             [("reason", .str "ltv-threshold"), ("ltv", .num (loanLtv st id price))], t⟩]) ∧
    (loanLtv st id price < liq → warn ≤ loanLtv st id price →
      (riskProcessLoan st warn liq price id t).2 = .warned (loanLtv st id price) ∧
      (riskProcessLoan st warn liq price id t).1.statusOf id = some "active" ∧
      (riskProcessLoan st warn liq price id t).1.events =
        st.events ++
          [⟨id, "health-check",
             [("priceEur", .num price), ("ltv", .num (loanLtv st id price))], t⟩,
           ⟨id, "ltv-warning",
             [("ltv", .num (loanLtv st id price)), ("threshold", .num warn)], t⟩]) := by
  cases hf : st.fetch id with
  | none =>
    simp only [StoreState.statusOf, hf] at hs
    exact Option.noConfusion hs
  | some l =>
  have hsl : jstr? (jget l "status") = some "active" := by
    simpa only [StoreState.statusOf, hf] using hs
  have hv : objGet? l "status" = some (.str "active") := by
    rcases hg : objGet? l "status" with _ | v
    · rw [jget, hg] at hsl
      simp [jstr?] at hsl
    · rw [jget, hg] at hsl
      cases v with
      | str s =>
        simp only [Option.getD_some, jstr?, Option.some.injEq] at hsl
        rw [hsl]
      | null => simp [jstr?] at hsl
      | num q => simp [jstr?] at hsl
      | arr xs => simp [jstr?] at hsl
      | obj o => simp [jstr?] at hsl
  have hemp : l.isEmpty = false := objGet?_ne_nil l "status" _ hv
  have hnemp : ¬(l.isEmpty = true) := by
    rw [hemp]
    exact Bool.false_ne_true
  have hc' : 0 < pyFloat (pyOr (jget l "collateralBTCb") (.num 0)) := by
    simpa only [loanCollateral, hf, Option.getD_some] using hc
  have hcv : 0 < pyFloat (pyOr (jget l "collateralBTCb") (.num 0)) * price := mul_pos hc' hp
  have hltv : loanLtv st id price =
      pyFloat (pyOr (jget l "principal") (.num 0)) /
        (pyFloat (pyOr (jget l "collateralBTCb") (.num 0)) * price) := by
    simp only [loanLtv, loanPrincipal, loanCollateral, hf, Option.getD_some]
  have hst1 : ∀ X : Rat, (st.update_health id price X t).1 =
      ⟨aset st.loans id
         (objSet (objSet (objSet l "lastPriceEur" (.num price)) "currentLtv" (.num X))
           "healthUpdatedAt" (.num t)),
       st.events ++ [⟨id, "health-check", [("priceEur", .num price), ("ltv", .num X)], t⟩]⟩ := by
    intro X
    simp only [StoreState.update_health, hf, hemp, Bool.false_eq_true, if_false,
      StoreState.persist, StoreState.record_event]
  have hred : riskProcessLoan st warn liq price id t =
      (if liq ≤ loanLtv st id price then
        (((st.update_health id price (loanLtv st id price) t).1.mark_default id
            "ltv-threshold" (some (loanLtv st id price)) t).1,
         .defaulted (loanLtv st id price))
       else if warn ≤ loanLtv st id price then
        ((st.update_health id price (loanLtv st id price) t).1.record_event id "ltv-warning"
          [("ltv", .num (loanLtv st id price)), ("threshold", .num warn)] t,
         .warned (loanLtv st id price))
       else ((st.update_health id price (loanLtv st id price) t).1,
         .snapshotOnly (loanLtv st id price))) := by
    simp only [riskProcessLoan, hf, Option.getD_some]
    rw [if_neg hnemp, if_neg (fun hx => hx hsl), if_neg (not_le.mpr hc'),
      if_neg (not_le.mpr hcv), ← hltv]
  have hred1 := congrArg Prod.fst hred
  have hred2 := congrArg Prod.snd hred
  simp only [apply_ite Prod.fst] at hred1
  simp only [apply_ite Prod.snd] at hred2
  refine ⟨?_, ?_, ?_⟩
  · by_cases hliq : liq ≤ loanLtv st id price
    · rw [hred1, if_pos hliq, mark_default_events, hst1]
      simp
    · by_cases hw : warn ≤ loanLtv st id price
      · rw [hred1, if_neg hliq, if_pos hw]
        simp only [StoreState.record_event, hst1]
        simp
      · rw [hred1, if_neg hliq, if_neg hw, hst1]
        simp
  · intro hliq
    refine ⟨?_, ?_, ?_, ?_⟩
    · rw [hred2, if_pos hliq]
    · rw [hred1, if_pos hliq]
      exact statusOf_mark_default_self _ _ _ _ _
    · rw [hred1, if_pos hliq]
      exact mark_default_reason _ _ _ _ _
    · rw [hred1, if_pos hliq, mark_default_events, hst1]
      simp [List.append_assoc]
  · intro hliq hw
    refine ⟨?_, ?_, ?_⟩
    · rw [hred2, if_neg (not_le.mpr hliq), if_pos hw]
    · rw [hred1, if_neg (not_le.mpr hliq), if_pos hw, statusOf_record_event,
        statusOf_update_health]
      exact hs
    · rw [hred1, if_neg (not_le.mpr hliq), if_pos hw]
      simp only [StoreState.record_event, hst1]
      simp [List.append_assoc]

/-- A store holding the spec scenario's loan: principal 1000, collateral 1,
status active. -/
def c3Store : StoreState :=
  ⟨[("L", [("loanId", .str "L"), ("status", .str "active"),
           ("principal", .num 1000), ("collateralBTCb", .num 1)])], []⟩

/-- Witness: at price 1400 the scenario loan's LTV is 5/7 ≈ 0.714 ≥ 0.7,
so the cycle defaults it (not merely warns) with reason `ltv-threshold`. -/
theorem risk_monitor_cycle_per_loan_witness :
    (riskProcessLoan c3Store (13/20) (7/10) 1400 "L" 0).2 = .defaulted (5/7) ∧
    (riskProcessLoan c3Store (13/20) (7/10) 1400 "L" 0).1.statusOf "L" = some "defaulted" ∧
    objGet? (((riskProcessLoan c3Store (13/20) (7/10) 1400 "L" 0).1.fetch "L").getD [])
      "defaultReason" = some (.str "ltv-threshold") := by
  have hone : loanCollateral c3Store "L" = 1 := by
    simp [loanCollateral, c3Store, StoreState.fetch, alookup, jget, objGet?, pyOr,
      pyTruthy, pyFloat]
  have hpr : loanPrincipal c3Store "L" = 1000 := by
    simp [loanPrincipal, c3Store, StoreState.fetch, alookup, jget, objGet?, pyOr,
      pyTruthy, pyFloat]
  have hL : loanLtv c3Store "L" 1400 = 5 / 7 := by
    rw [loanLtv, hone, hpr]
    norm_num
  have h := risk_monitor_cycle_per_loan c3Store (13/20) (7/10) 1400 "L" 0 rfl
    (by rw [hone]; norm_num) (by norm_num)
  have hb := h.2.1 (by rw [hL]; norm_num)
  exact ⟨by rw [hb.1, hL], hb.2.1, hb.2.2.1⟩

/-! ### C6: terms acceptance validation -/

/-- C6: given a submission that passes the preliminary presence checks
(non-empty payload, signature, resolvable wallet consistent with the
borrower, non-empty submitted hash), validation fails with a distinct,
field-identifying error for each of: a submitted hash differing from the
canonical terms hash, a version differing from the active version, a
missing or non-positive timestamp, and a recovered signer differing from
the claimed wallet; and it returns the validated acceptance only when all
four checks pass. -/
theorem terms_validation_checks (CH V : String) (cs : String → String)
    (rec : TermsMsg → String → Option String) (payload : Obj) (bw : String) :
    (payload.isEmpty = false → termsSignatureOf payload ≠ "" →
     termsWalletOf payload bw ≠ "" →
     ¬(pyLower (pyStrip bw) ≠ "" ∧
        pyLower (pyStrip (termsWalletOf payload bw)) ≠ pyLower (pyStrip bw)) →
     termsHashOf payload ≠ "" →
      ((pyLower (termsHashNorm payload) ≠ pyLower CH →
        _validate_terms_acceptance CH V cs rec payload bw = .error "terms hash mismatch") ∧
       (pyLower (termsHashNorm payload) = pyLower CH →
        termsVersionOf V payload ≠ V →
        _validate_terms_acceptance CH V cs rec payload bw = .error "terms version mismatch") ∧
       (pyLower (termsHashNorm payload) = pyLower CH →
        termsVersionOf V payload = V →
        (termsTimestampOf payload).getD 0 ≤ 0 →
        _validate_terms_acceptance CH V cs rec payload bw = .error "terms timestamp invalid") ∧
       (∀ ts recov, pyLower (termsHashNorm payload) = pyLower CH →
        termsVersionOf V payload = V →
        termsTimestampOf payload = some ts → 0 < ts →
        rec ⟨cs (termsWalletOf payload bw), pyLower (termsHashNorm payload), ts⟩
          (termsSignatureOf payload) = some recov →
        pyLower (pyStrip recov) ≠ pyLower (pyStrip (termsWalletOf payload bw)) →
        _validate_terms_acceptance CH V cs rec payload bw =
          .error "terms signature does not match wallet"))) ∧
    (∀ v, _validate_terms_acceptance CH V cs rec payload bw = .ok v →
      pyLower (termsHashNorm payload) = pyLower CH ∧
      termsVersionOf V payload = V ∧
      termsTimestampOf payload = some v.timestamp ∧ 0 < v.timestamp ∧
      ∃ recov,
        rec ⟨cs (termsWalletOf payload bw), pyLower (termsHashNorm payload), v.timestamp⟩
          (termsSignatureOf payload) = some recov ∧
        pyLower (pyStrip recov) = pyLower (pyStrip (termsWalletOf payload bw)) ∧
        v.wallet = pyLower (pyStrip (termsWalletOf payload bw)) ∧
        v.termsHash = pyLower (termsHashNorm payload) ∧
        v.signature = termsSignatureOf payload ∧
        v.termsVersion = termsVersionOf V payload) := by
  constructor
  · intro h0 h1 h2 h3 h4
    have n0 : ¬(payload.isEmpty = true) := by
      rw [h0]
      exact Bool.false_ne_true
    refine ⟨?_, ?_, ?_, ?_⟩
    · intro hne
      simp only [_validate_terms_acceptance]
      rw [if_neg n0, if_neg h1, if_neg h2, if_neg h3, if_neg h4, if_pos hne]
    · intro heq hne
      simp only [_validate_terms_acceptance]
      rw [if_neg n0, if_neg h1, if_neg h2, if_neg h3, if_neg h4,
        if_neg (fun hx => hx heq), if_pos hne]
    · intro heq hveq hts
      simp only [_validate_terms_acceptance]
      rw [if_neg n0, if_neg h1, if_neg h2, if_neg h3, if_neg h4,
        if_neg (fun hx => hx heq), if_neg (fun hx => hx hveq)]
      rcases hto : termsTimestampOf payload with _ | ts
      · simp only [hto]
      · rw [hto, Option.getD_some] at hts
        simp only [hto]
        rw [if_pos hts]
    · intro ts recov heq hveq hts h0lt hrec hne
      simp only [_validate_terms_acceptance]
      rw [if_neg n0, if_neg h1, if_neg h2, if_neg h3, if_neg h4,
        if_neg (fun hx => hx heq), if_neg (fun hx => hx hveq)]
      simp only [hts]
      rw [if_neg (not_le.mpr h0lt)]
      simp only [hrec]
      rw [if_pos hne]
  · intro v hv
    simp only [_validate_terms_acceptance] at hv
    by_cases c0 : payload.isEmpty = true
    · rw [if_pos c0] at hv
      exact Except.noConfusion hv
    rw [if_neg c0] at hv
    by_cases c1 : termsSignatureOf payload = ""
    · rw [if_pos c1] at hv
      exact Except.noConfusion hv
    rw [if_neg c1] at hv
    by_cases c2 : termsWalletOf payload bw = ""
    · rw [if_pos c2] at hv
      exact Except.noConfusion hv
    rw [if_neg c2] at hv
    by_cases c3 : pyLower (pyStrip bw) ≠ "" ∧
        pyLower (pyStrip (termsWalletOf payload bw)) ≠ pyLower (pyStrip bw)
    · rw [if_pos c3] at hv
      exact Except.noConfusion hv
    rw [if_neg c3] at hv
    by_cases c4 : termsHashOf payload = ""
    · rw [if_pos c4] at hv
      exact Except.noConfusion hv
    rw [if_neg c4] at hv
    by_cases c5 : pyLower (termsHashNorm payload) ≠ pyLower CH
    · rw [if_pos c5] at hv
      exact Except.noConfusion hv
    rw [if_neg c5] at hv
    by_cases c6 : termsVersionOf V payload ≠ V
    · rw [if_pos c6] at hv
      exact Except.noConfusion hv
    rw [if_neg c6] at hv
    rcases hts : termsTimestampOf payload with _ | ts
    · simp only [hts] at hv
      exact Except.noConfusion hv
    simp only [hts] at hv
    by_cases c7 : ts ≤ 0
    · rw [if_pos c7] at hv
      exact Except.noConfusion hv
    rw [if_neg c7] at hv
    rcases hrec : rec ⟨cs (termsWalletOf payload bw), pyLower (termsHashNorm payload), ts⟩
        (termsSignatureOf payload) with _ | recov
    · simp only [hrec] at hv
      exact Except.noConfusion hv
    simp only [hrec] at hv
    by_cases c8 : pyLower (pyStrip recov) ≠ pyLower (pyStrip (termsWalletOf payload bw))
    · rw [if_pos c8] at hv
      exact Except.noConfusion hv
    rw [if_neg c8] at hv
    have hv' := Except.ok.inj hv
    subst hv'
    exact ⟨not_not.mp c5, not_not.mp c6, rfl, not_le.mp c7,
      recov, hrec, not_not.mp c8, rfl, rfl, rfl, rfl⟩

/-- Witness: a concrete submission whose hash matches (case-insensitively)
but whose version is wrong is rejected with the version-identifying
error. -/
theorem terms_validation_checks_witness :
    _validate_terms_acceptance "0xABC" "1" id (fun _ _ => some "0xa")
      [("signature", .str "0xsig"), ("wallet", .str "0xA"),
       ("termsHash", .str "0xabc"), ("termsVersion", .str "2"), ("timestamp", .num 5)]
      "0xA" = .error "terms version mismatch" := by
  have h := (terms_validation_checks "0xABC" "1" id (fun _ _ => some "0xa")
    [("signature", .str "0xsig"), ("wallet", .str "0xA"),
     ("termsHash", .str "0xabc"), ("termsVersion", .str "2"), ("timestamp", .num 5)]
    "0xA").1
  exact (h (by rfl) (by decide) (by decide) (by decide) (by decide)).2.1
    (by decide) (by decide)
